import Mathlib

/-!
# Verification of the identity/session layer of `rust-http-gql-server`

Shallow embedding of the authentication, authorization and one-time-code
session handling code of the repository (`src/gql-api/src/auth.rs`,
`src/gql-api/src/http/handlers.rs`, `src/gql-api/src/db/sql.rs`,
`src/gql-api/src/db/models.rs`), together with theorems settling the
spec claims about that code.

Conventions:
* Rust `i16`/`i32`/`i64` values are modelled as `Int` (no arithmetic here
  ever approaches the width bounds), `usize` timestamps as `Int` seconds
  or milliseconds as indicated at each definition.
* Database tables are modelled as lists of row structures; a SQL
  `UPDATE ... WHERE <pred>` is a `List.map` that rewrites exactly the rows
  matching the translated predicate.
* Fallible Rust functions return `Except`; the async I/O collaborators
  (Postgres, the NEAR gRPC client, Twilio, Pusher) are passed in as
  explicit environment records of oracle functions, mirroring §6 of the
  spec ("external collaborators").
-/

/-- Embeds `enum Role` from `src/gql-api/src/auth.rs` (lines 22-29):
closed enumeration `{Admin = 0, Seller = 1, Buyer = 2, SuperAdmin = 4}`. -/
inductive Role
  | Admin
  | Seller
  | Buyer
  | SuperAdmin
deriving DecidableEq, Repr

/-- Embeds `enum UserStatus` from `src/gql-api/src/auth.rs` (lines 78-83):
closed enumeration `{Unverified = 0, PhoneVerified = 1}`. -/
inductive UserStatus
  | Unverified
  | PhoneVerified
deriving DecidableEq, Repr

/-- Embeds `enum UserError` from `src/gql-api/src/error.rs` (the variants
reachable from the embedded handlers). -/
inductive UserError
  | UserNotFound
  | UnknownUserRole (s : String)
  | UnknownUserStatus (s : String)
  | UnallowedUserRole (s : String)
  | OnlyBuyer
  | UnverifiedUser
  | UnavailableUsername
  | WalletCreationFailed
  | BadSignature
  | WrongWalletPubKey
deriving DecidableEq, Repr

/-- Embeds `enum AuthError` from `src/gql-api/src/error.rs` (lines 64-79). -/
inductive AuthError
  | WrongCredentials
  | JWTTokenError
  | JWTTokenCreationError
  | NoAuthHeaderError
  | InvalidAuthHeaderError
  | NoPermissionError
  | BadEncodedUserRole (s : String)
deriving DecidableEq, Repr

/-- Embeds `enum SessionError` from `src/gql-api/src/error.rs` (lines 177-190). -/
inductive SessionError
  | SessionVerificationCodeMismatch (s : String)
  | SessionRecoveryCodeMismatch (s : String)
  | SessionNotFoundForUuid (s : String)
  | NoSessionForToken (s : String)
  | UsedSession (s : String)
  | ExpiredSession (s : String)
deriving DecidableEq, Repr

/-- Embeds the top-level `enum Error` from `src/gql-api/src/error.rs`; the
infrastructure error families (request deserialization/validation,
Postgres, gRPC, Twilio, Pusher, hash) whose payloads the handlers never
inspect are collapsed to payload-free constructors — in particular
`Request` stands for `Error::Request(RequestError::ValidationError(..))`,
the rejection produced by a failing `req_body.validate()`. -/
inductive Error
  | Auth (e : AuthError)
  | User (e : UserError)
  | Session (e : SessionError)
  | UnparsableUuid (s : String)
  | Request
  | Grpc
  | Postgres
  | Twilio
  | Pusher
  | Hash
deriving DecidableEq, Repr

/-- Models Rust `str::to_lowercase` at the ASCII level used by the role and
status names: `Char.toLower` in Lean core is exactly the ASCII lowercase map
(`if 65 <= n <= 90 then chr (n + 32) else c`), the same map Rust applies to
ASCII characters. -/
def rust_to_lowercase (s : String) : String :=
  String.mk (s.data.map Char.toLower)

/-- Embeds `impl From<Role> for i16` from `src/gql-api/src/auth.rs`
(lines 31-35): the `repr(i16)` discriminants. -/
def Role.to_i16 : Role → Int
  | .Admin => 0
  | .Seller => 1
  | .Buyer => 2
  | .SuperAdmin => 4

/-- Embeds `impl TryFrom<i16> for Role` from `src/gql-api/src/auth.rs`
(lines 37-49). -/
def Role.try_from_i16 (n : Int) : Except Error Role :=
  if n = 0 then .ok .Admin
  else if n = 1 then .ok .Seller
  else if n = 2 then .ok .Buyer
  else if n = 4 then .ok .SuperAdmin
  else .error (.User (.UnknownUserRole (toString n)))

/-- Embeds `impl fmt::Display for Role` from `src/gql-api/src/auth.rs`
(lines 66-75). -/
def Role.to_string : Role → String
  | .Buyer => "buyer"
  | .Seller => "seller"
  | .Admin => "admin"
  | .SuperAdmin => "superadmin"

/-- Embeds `impl TryFrom<&str> for Role` from `src/gql-api/src/auth.rs`
(lines 52-64): matches on the lowercased input, but the error payload
carries the original (not lowercased) string. -/
def Role.try_from_str (role : String) : Except Error Role :=
  if rust_to_lowercase role = "buyer" then .ok .Buyer
  else if rust_to_lowercase role = "seller" then .ok .Seller
  else if rust_to_lowercase role = "admin" then .ok .Admin
  else if rust_to_lowercase role = "superadmin" then .ok .SuperAdmin
  else .error (.User (.UnknownUserRole role))

/-- Embeds `impl From<UserStatus> for i16` from `src/gql-api/src/auth.rs`
(lines 85-89). -/
def UserStatus.to_i16 : UserStatus → Int
  | .Unverified => 0
  | .PhoneVerified => 1

/-- Embeds `impl TryFrom<i16> for UserStatus` from `src/gql-api/src/auth.rs`
(lines 91-101). -/
def UserStatus.try_from_i16 (n : Int) : Except Error UserStatus :=
  if n = 0 then .ok .Unverified
  else if n = 1 then .ok .PhoneVerified
  else .error (.User (.UnknownUserStatus (toString n)))

/-- Embeds `impl fmt::Display for UserStatus` from `src/gql-api/src/auth.rs`
(lines 118-125). -/
def UserStatus.to_string : UserStatus → String
  | .Unverified => "unverified"
  | .PhoneVerified => "phone_verified"

/-- Embeds `impl TryFrom<&str> for UserStatus` from `src/gql-api/src/auth.rs`
(lines 104-116). -/
def UserStatus.try_from_str (user_status : String) : Except Error UserStatus :=
  if rust_to_lowercase user_status = "unverified" then .ok .Unverified
  else if rust_to_lowercase user_status = "phone_verified" then .ok .PhoneVerified
  else .error (.User (.UnknownUserStatus user_status))

/-- Embeds `struct Claims` from `src/gql-api/src/auth.rs` (lines 14-19):
the JWT payload. `exp` is a Unix timestamp in seconds. -/
structure Claims where
  sub : String
  role : String
  exp : Int
deriving DecidableEq, Repr

/-- A signed bearer token. The compact JWS string produced by
`jsonwebtoken::encode` is modelled abstractly as the pair of its payload
and the secret it was signed with (HS512 is a MAC, so for a fixed secret
the encoding is injective and signature verification amounts to comparing
the signing secret with the verifying secret). -/
structure Jwt where
  claims : Claims
  secret : String
deriving DecidableEq, Repr

/-- Embeds `const JWT_SECRET: &[u8] = b"secret"` from
`src/gql-api/src/auth.rs` (line 12). -/
def JWT_SECRET : String := "secret"

/-- Embeds `create_jwt` from `src/gql-api/src/auth.rs` (lines 127-141):
expiry is `Utc::now() + 60 minutes` (`now` is the issuance time in Unix
seconds), the role claim is the `Display` form of the role, HS512 with
`JWT_SECRET`. The `Err(JWTTokenCreationError)` branch of the source guards
only a serialization failure inside `jsonwebtoken::encode`, which cannot
occur for this fixed claim shape, so the model returns the token directly. -/
def create_jwt (now : Int) (uid : String) (role : Role) : Jwt :=
  { claims := { sub := uid, role := role.to_string, exp := now + 60 * 60 }
    secret := JWT_SECRET }

/-- Error kinds of `jsonwebtoken::decode` distinguished by the model. -/
inductive JwtError
  | InvalidSignature
  | ExpiredSignature
deriving DecidableEq, Repr

/-- Modelled from the spec: `jsonwebtoken::decode` with
`Validation::new(Algorithm::HS512)` (`src/gql-api/src/auth.rs` lines
163-168). The jsonwebtoken crate itself and the Cargo manifest pinning its
version are not under `src/`, so its expiry validation is taken from the
spec, which fixes a "clock skew tolerance of zero" (§8): the signature is
checked first, then the token is rejected exactly when `exp < now`
(`now` in Unix seconds). -/
def decode_jwt (now : Int) (token : Jwt) : Except JwtError Claims :=
  if token.secret ≠ JWT_SECRET then .error .InvalidSignature
  else if token.claims.exp < now then .error .ExpiredSignature
  else .ok token.claims

/-- Byte-level test used by the model of `uuid::Uuid::parse_str`:
ASCII hexadecimal digit. -/
def is_hex_digit (c : Char) : Bool :=
  (48 ≤ c.toNat && c.toNat ≤ 57) ||
  (97 ≤ c.toNat && c.toNat ≤ 102) ||
  (65 ≤ c.toNat && c.toNat ≤ 70)

/-- Hyphenated UUID layout `8-4-4-4-12`: positions of the hyphens. -/
def uuid_hyphen_positions : List Nat := [8, 13, 18, 23]

/-- Parses the 36-character hyphenated UUID form, returning the 32 hex
digits lowercased. -/
def parse_hyphenated_uuid (cs : List Char) : Option (List Char) :=
  if cs.length = 36 &&
      (List.range 36).all (fun i =>
        if uuid_hyphen_positions.contains i then cs.getD i ' ' == '-'
        else is_hex_digit (cs.getD i ' ')) then
    some ((cs.filter (fun c => c != '-')).map Char.toLower)
  else
    none

/-- Models `uuid::Uuid::parse_str` (the uuid crate is an external
dependency; its Cargo manifest is not under `src/`). The accepted grammar
is the crate's documented one: the simple 32-hex-digit form, the
hyphenated `8-4-4-4-12` form, the braced form and the URN form, hex
digits in either case. The parsed value is represented canonically as the
32 hex digits lowercased. -/
def uuid_parse_str (s : String) : Option (List Char) :=
  let cs := s.data
  if cs.length = 32 && cs.all is_hex_digit then
    some (cs.map Char.toLower)
  else if cs.length = 36 then
    parse_hyphenated_uuid cs
  else if cs.length = 38 && cs.headD ' ' == '{' && cs.getLastD ' ' == '}' then
    parse_hyphenated_uuid ((cs.drop 1).take 36)
  else if cs.length = 45 && decide (cs.take 9 = "urn:uuid:".data) then
    parse_hyphenated_uuid (cs.drop 9)
  else
    none

/-- Embeds `authorize` from `src/gql-api/src/auth.rs` (lines 158-187),
from the point where the bearer token string has been extracted from the
`Authorization` header (`jwt_from_header`): decode (signature + expiry)
first, then parse the role claim into the closed `Role` enumeration, then
the exact-membership test against the allowed roles, and only then the
UUID parse of the subject claim. Every decode failure is collapsed by the
source into `AuthError::JWTTokenError`. -/
def authorize (roles : List Role) (token : Jwt) (now : Int) :
    Except Error (List Char) :=
  match decode_jwt now token with
  | .error _ => .error (.Auth .JWTTokenError)
  | .ok claims =>
    match Role.try_from_str claims.role with
    | .error _ => .error (.Auth (.BadEncodedUserRole claims.role))
    | .ok token_role =>
      if (roles.find? (fun role => decide (role = token_role))).isNone then
        .error (.Auth .NoPermissionError)
      else
        match uuid_parse_str claims.sub with
        | none => .error (.UnparsableUuid claims.sub)
        | some user_id => .ok user_id

/-- Canonical UUID values (as stored in the database rows) are the
32 lowercase hex digits packed into a `String`. -/
def uuidString (u : List Char) : String := String.mk u

/-- Embeds `struct DbSession` from `src/gql-api/src/db/models.rs`
(lines 239-245): a passwordless-login session row. `expires_at` is in
milliseconds, matching the `timestamp_millis` comparisons of the handler. -/
structure DbSession where
  id : String
  expires_at : Int
  login_code : String
  is_used : Bool
  user_id : Option String
deriving DecidableEq, Repr

/-- Embeds `struct DbBuyerSignupSession` from `src/gql-api/src/db/models.rs`
(lines 283-289): a phone-signup verification session row. -/
structure DbBuyerSignupSession where
  id : String
  created_at : Int
  verification_code : String
  phone_number : String
  is_verified : Bool
deriving DecidableEq, Repr

/-- Embeds `struct DbBuyerRecoverySession` from
`src/gql-api/src/db/models.rs` (lines 327-334): an account-recovery
session row. -/
structure DbBuyerRecoverySession where
  id : String
  created_at : Int
  recovery_code : String
  phone_number : String
  is_recovered : Bool
  created_by_user : String
deriving DecidableEq, Repr

/-- Embeds `struct DbUser` from `src/gql-api/src/db/models.rs`
(lines 16-29). -/
structure DbUser where
  id : String
  name : Option String
  username : String
  phone_number : Option String
  email : Option String
  password : Option String
  encrypted_secret_key : Option String
  created_at : Int
  wallet_id : String
  wallet_balance : String
  user_type : Role
  user_status : UserStatus
deriving DecidableEq, Repr

/-- Embeds `sql_timestamp` from `src/gql-api/src/db/sql.rs`
(lines 926-936): current time plus an optional number of seconds, at
millisecond precision. `now` is in milliseconds. -/
def sql_timestamp (now : Int) (sec_to_add : Option Int) : Int :=
  now + (sec_to_add.getD 0) * 1000

/-- Embeds `db_get_session_by_login_code` from `src/gql-api/src/db/sql.rs`
(lines 476-487): `SELECT ... WHERE login_code = $1`; `query_one` fails when
no row matches. -/
def db_get_session_by_login_code (sessions : List DbSession) (login_code : String) :
    Option DbSession :=
  sessions.find? (fun s => s.login_code == login_code)

/-- Embeds `db_update_session_info` from `src/gql-api/src/db/sql.rs`
(lines 489-505): `UPDATE sessions SET is_used = $1, user_id = $2 WHERE
id = $3`. The `WHERE` clause matches on the id alone — it carries no
`is_used`, expiry or code predicate. -/
def db_update_session_info (sessions : List DbSession) (session_id : String)
    (user_id : String) (is_used : Bool) : List DbSession :=
  sessions.map (fun s =>
    if s.id = session_id then
      { s with is_used := is_used, user_id := some user_id }
    else s)

/-- Embeds `db_get_buyer_signup_session_by_id` from
`src/gql-api/src/db/sql.rs` (lines 450-461): `SELECT ... WHERE id = $1`. -/
def db_get_buyer_signup_session_by_id (sessions : List DbBuyerSignupSession)
    (session_id : String) : Option DbBuyerSignupSession :=
  sessions.find? (fun s => s.id == session_id)

/-- Embeds `db_get_buyer_recovery_session_by_id` from
`src/gql-api/src/db/sql.rs` (lines 463-474): `SELECT ... WHERE id = $1`. -/
def db_get_buyer_recovery_session_by_id (sessions : List DbBuyerRecoverySession)
    (session_id : String) : Option DbBuyerRecoverySession :=
  sessions.find? (fun s => s.id == session_id)

/-- Embeds `db_update_buyer_signup_session` from `src/gql-api/src/db/sql.rs`:
`UPDATE ... WHERE id = <row id>`, rewriting the whole row. -/
def db_update_buyer_signup_session (sessions : List DbBuyerSignupSession)
    (row : DbBuyerSignupSession) : List DbBuyerSignupSession :=
  sessions.map (fun s => if s.id = row.id then row else s)

/-- Embeds `db_update_buyer_recovery_session` from
`src/gql-api/src/db/sql.rs` (lines 430-448): `UPDATE ... WHERE id = <row
id>`, rewriting the whole row. -/
def db_update_buyer_recovery_session (sessions : List DbBuyerRecoverySession)
    (row : DbBuyerRecoverySession) : List DbBuyerRecoverySession :=
  sessions.map (fun s => if s.id = row.id then row else s)

/-- Embeds `db_get_user_by_id` from `src/gql-api/src/db/sql.rs`
(lines 536-547). -/
def db_get_user_by_id (users : List DbUser) (user_id : String) : Option DbUser :=
  users.find? (fun u => u.id == user_id)

/-- Embeds `db_get_user_by_wallet_id` from `src/gql-api/src/db/sql.rs`. -/
def db_get_user_by_wallet_id (users : List DbUser) (wallet_id : String) :
    Option DbUser :=
  users.find? (fun u => u.wallet_id == wallet_id)

/-- Embeds `struct VerifyLoginCodeRequest` from
`src/gql-api/src/http/models.rs` (lines 227-234). -/
structure VerifyLoginCodeRequest where
  code : String
  signature : String
  wallet_id : String
  pub_key : String
deriving DecidableEq, Repr

/-- Embeds the `Validate` derive of `VerifyLoginCodeRequest`
(`src/gql-api/src/http/models.rs` lines 225-234): `wallet_id` length
5-64 and `pub_key` length 40-45 (the validator crate counts chars);
`code` and `signature` carry no constraint. -/
def VerifyLoginCodeRequest.validate (req : VerifyLoginCodeRequest) : Bool :=
  (5 ≤ req.wallet_id.length && req.wallet_id.length ≤ 64) &&
  (40 ≤ req.pub_key.length && req.pub_key.length ≤ 45)

/-- One public key entry of a `GetAccountKeysResponse` (proto-generated). -/
structure AccountKey where
  public_key : String
deriving DecidableEq, Repr

/-- The external collaborators consulted by `verify_login_code`
(`src/gql-api/src/http/handlers.rs`): the NEAR gRPC client and the Pusher
client, as oracle functions (spec §6). -/
structure LoginEnv where
  verify_signature : String → String → String → Except Unit Bool
  get_account_keys : String → Except Unit (List AccountKey)
  pusher_send_result : Except Unit Unit

/-- The bitcoin base58 alphabet used by the `bs58` crate default encoder. -/
def BASE58_ALPHABET : List Char :=
  "123456789ABCDEFGHJKLMNPQRSTUVWXYZabcdefghijkmnopqrstuvwxyz".data

/-- Models `bs58::encode(bytes).into_string()` (ASCII byte level): the big
integer read from the bytes written in base 58, with one leading `1` per
leading zero byte. Used only as the opaque challenge message handed to the
signature oracle. -/
def bs58_encode (s : String) : String :=
  let bytes := s.data.map Char.toNat
  let n := bytes.foldl (fun acc b => acc * 256 + b) 0
  let digs := (Nat.digits 58 n).reverse
  let zeros := (bytes.takeWhile (fun b => b == 0)).length
  String.mk (List.replicate zeros '1' ++ digs.map (fun d => BASE58_ALPHABET.getD d ' '))

/-- Embeds the session lookup and pre-checks of `verify_login_code`,
`src/gql-api/src/http/handlers.rs` lines 852-874: fetch by submitted code
(`NoSessionForToken` when absent), then the `is_used` check
(`UsedSession`), then the expiry check (`ExpiredSession`, strict
millisecond comparison `now > expires_at`). This is the read phase: it
performs the single `SELECT` round-trip of the handler and no write. -/
def verify_login_code_read (sessions : List DbSession) (now_ms : Int)
    (code : String) : Except Error DbSession :=
  match db_get_session_by_login_code sessions code with
  | some db_session =>
    if db_session.is_used then
      .error (.Session (.UsedSession code))
    else if now_ms > db_session.expires_at then
      .error (.Session (.ExpiredSession code))
    else
      .ok db_session
  | none => .error (.Session (.NoSessionForToken code))

/-- Embeds the remainder of `verify_login_code`
(`src/gql-api/src/http/handlers.rs` lines 876-958) after the read phase:
signature verification of the base58-encoded code, user lookup by wallet
id, on-ledger key-membership check, buyer check, JWT issuance, then the
unconditional `db_update_session_info` write marking the session used, and
finally the Pusher delivery (whose failure surfaces after the write).
Returns the handler outcome together with the session table after the
call, so writes are visible in the result. -/
def verify_login_code_checked (env : LoginEnv) (users : List DbUser)
    (sessions : List DbSession) (db_session : DbSession)
    (req : VerifyLoginCodeRequest) (now_ms : Int) :
    Except Error Unit × List DbSession :=
  match env.verify_signature (bs58_encode db_session.login_code) req.pub_key req.signature with
  | .error _ => (.error .Grpc, sessions)
  | .ok sig_verified =>
    if !sig_verified then
      (.error (.User .BadSignature), sessions)
    else
      match db_get_user_by_wallet_id users req.wallet_id with
      | none => (.error (.User .UserNotFound), sessions)
      | some db_user =>
        match env.get_account_keys db_user.wallet_id with
        | .error _ => (.error .Grpc, sessions)
        | .ok account_keys =>
          if (account_keys.find? (fun key => key.public_key == req.pub_key)).isNone then
            (.error (.User .WrongWalletPubKey), sessions)
          else if db_user.user_type ≠ .Buyer then
            (.error (.User .OnlyBuyer), sessions)
          else
            let _jwt_token := create_jwt (now_ms / 1000) db_user.id .Buyer
            let sessions2 := db_update_session_info sessions db_session.id db_user.id true
            match env.pusher_send_result with
            | .error _ => (.error .Pusher, sessions2)
            | .ok _ => (.ok (), sessions2)

/-- The store-free prefix of `verify_login_code`
(`src/gql-api/src/http/handlers.rs` lines 836-850): the buyer role gate
followed by the `req_body.validate()` gate — everything the handler runs
before its first database access. Returns the rejection, if any. -/
def verify_login_code_pre (role : String) (req : VerifyLoginCodeRequest) :
    Option Error :=
  match Role.try_from_str role with
  | .error _ => some (.User (.UnallowedUserRole role))
  | .ok r =>
    if r ≠ .Buyer then some (.User .OnlyBuyer)
    else if !req.validate then some .Request
    else none

/-- Embeds `verify_login_code` from `src/gql-api/src/http/handlers.rs`
(lines 831-959), sequentially: the role gate (only buyers) and the
request validation (`verify_login_code_pre`), then the read phase, then
the checked phase. `now_ms` is the request time in milliseconds. -/
def verify_login_code (env : LoginEnv) (users : List DbUser)
    (sessions : List DbSession) (now_ms : Int) (role : String)
    (req : VerifyLoginCodeRequest) : Except Error Unit × List DbSession :=
  match verify_login_code_pre role req with
  | some e => (.error e, sessions)
  | none =>
    match verify_login_code_read sessions now_ms req.code with
    | .error e => (.error e, sessions)
    | .ok db_session => verify_login_code_checked env users sessions db_session req now_ms

/-- Embeds `create_login_code` from `src/gql-api/src/http/handlers.rs`
(lines 785-828): a fresh session with expiry `sql_timestamp(Some(5 * 60))`
— five minutes after creation — unused and unbound, appended to the
session table (`db_insert_session`). The randomly generated six-digit
code and the fresh UUID are parameters of the model. -/
def create_login_code (now_ms : Int) (new_id : String) (login_code : String)
    (sessions : List DbSession) : DbSession × List DbSession :=
  let expires_at := sql_timestamp now_ms (some (5 * 60))
  let new_db_session : DbSession :=
    { id := new_id, expires_at := expires_at, login_code := login_code
      is_used := false, user_id := none }
  (new_db_session, sessions ++ [new_db_session])

/-- One legal concurrent schedule of two `verify_login_code` calls against
the same store (spec §5: one logical task per request, state in the
backing store, each `SELECT`/`UPDATE` individually atomic): each call
first runs its store-free role and validation gates; when both pass, both
calls perform their read phase against the initial table, then call 1
completes (performing its write if it reaches one), then call 2
completes. Nothing in the source ties a call's `SELECT` to its later
unconditioned `UPDATE`, so this interleaving is admitted by the store
contract. Returns both outcomes and the final table. -/
def two_verify_calls_interleaved (env : LoginEnv) (users : List DbUser)
    (sessions0 : List DbSession) (now_ms : Int) (role : String)
    (req1 req2 : VerifyLoginCodeRequest) :
    (Except Error Unit × Except Error Unit) × List DbSession :=
  match verify_login_code_pre role req1, verify_login_code_pre role req2 with
  | some e1, some e2 => ((.error e1, .error e2), sessions0)
  | some e1, none =>
    let (r2, st2) := verify_login_code env users sessions0 now_ms role req2
    ((.error e1, r2), st2)
  | none, some e2 =>
    let (r1, st1) := verify_login_code env users sessions0 now_ms role req1
    ((r1, .error e2), st1)
  | none, none =>
    match verify_login_code_read sessions0 now_ms req1.code,
          verify_login_code_read sessions0 now_ms req2.code with
    | .error e1, .error e2 => ((.error e1, .error e2), sessions0)
    | .error e1, .ok s2 =>
      let (r2, st2) := verify_login_code_checked env users sessions0 s2 req2 now_ms
      ((.error e1, r2), st2)
    | .ok s1, .error e2 =>
      let (r1, st1) := verify_login_code_checked env users sessions0 s1 req1 now_ms
      ((r1, .error e2), st1)
    | .ok s1, .ok s2 =>
      let (r1, st1) := verify_login_code_checked env users sessions0 s1 req1 now_ms
      let (r2, st2) := verify_login_code_checked env users st1 s2 req2 now_ms
      ((r1, r2), st2)

/-- Embeds `struct BuyerVerifyRecoveryCodeRequest` from
`src/gql-api/src/http/models.rs` (lines 33-37). -/
structure BuyerVerifyRecoveryCodeRequest where
  session_id : String
  recovery_code : String
deriving DecidableEq, Repr

/-- Embeds the `Validate` derive of `BuyerVerifyRecoveryCodeRequest`
(`src/gql-api/src/http/models.rs` lines 31-37): `recovery_code` must be
exactly 6 chars; `session_id` carries no constraint. -/
def BuyerVerifyRecoveryCodeRequest.validate
    (req : BuyerVerifyRecoveryCodeRequest) : Bool :=
  req.recovery_code.length == 6

/-- Embeds `struct BuyerVerifyPhoneRequest` from
`src/gql-api/src/http/models.rs` (lines 84-88). -/
structure BuyerVerifyPhoneRequest where
  session_id : String
  verification_code : String
deriving DecidableEq, Repr

/-- Embeds the `Validate` derive of `BuyerVerifyPhoneRequest`
(`src/gql-api/src/http/models.rs` lines 82-88): `verification_code` must
be exactly 6 chars; `session_id` carries no constraint. -/
def BuyerVerifyPhoneRequest.validate (req : BuyerVerifyPhoneRequest) : Bool :=
  req.verification_code.length == 6

/-- Embeds `buyer_verify_recovery_code` from
`src/gql-api/src/http/handlers.rs` (lines 433-499): the buyer role gate,
session-id parse, lookup by id, exact code comparison, owning-user lookup,
then `is_recovered := true` written back and a fresh JWT issued for the
recovered user. The request validation (`req_body.validate()`, lines
450-452: `recovery_code` must be 6 chars) follows the role gate. The
source performs no check of `is_recovered` before comparing the code. Returns the handler outcome (the issued token and the
updated row) together with the session table after the call. `now` is in
Unix seconds (JWT issuance time). -/
def buyer_verify_recovery_code (role : String)
    (sessions : List DbBuyerRecoverySession) (users : List DbUser)
    (now : Int) (req : BuyerVerifyRecoveryCodeRequest) :
    Except Error (Jwt × DbBuyerRecoverySession) × List DbBuyerRecoverySession :=
  match Role.try_from_str role with
  | .error _ => (.error (.User (.UnallowedUserRole role)), sessions)
  | .ok r =>
    if r ≠ .Buyer then
      (.error (.User .OnlyBuyer), sessions)
    else if !req.validate then
      (.error .Request, sessions)
    else
      match uuid_parse_str req.session_id with
      | none => (.error (.UnparsableUuid req.session_id), sessions)
      | some session_id =>
        match db_get_buyer_recovery_session_by_id sessions (uuidString session_id) with
        | none => (.error (.Session (.SessionNotFoundForUuid req.session_id)), sessions)
        | some db_buyer_recovery_session =>
          if db_buyer_recovery_session.recovery_code ≠ req.recovery_code then
            (.error (.Session (.SessionRecoveryCodeMismatch req.recovery_code)), sessions)
          else
            match db_get_user_by_id users db_buyer_recovery_session.created_by_user with
            | none => (.error (.User .UserNotFound), sessions)
            | some db_user =>
              let updated := { db_buyer_recovery_session with is_recovered := true }
              let sessions2 := db_update_buyer_recovery_session sessions updated
              let jwt_token := create_jwt now db_user.id r
              (.ok (jwt_token, updated), sessions2)

/-- Embeds `buyer_verify_phone` from `src/gql-api/src/http/handlers.rs`
(lines 567-624): the buyer role gate, session-id parse, lookup by id,
exact code comparison, then `is_verified := true` written back; the
response reports the row's `is_verified` flag. The request validation
(`req_body.validate()`, lines 585-587: `verification_code` must be 6
chars) follows the role gate. The source performs no check of
`is_verified` before comparing the code. -/
def buyer_verify_phone (role : String) (sessions : List DbBuyerSignupSession)
    (req : BuyerVerifyPhoneRequest) :
    Except Error Bool × List DbBuyerSignupSession :=
  match Role.try_from_str role with
  | .error _ => (.error (.User (.UnallowedUserRole role)), sessions)
  | .ok r =>
    if r ≠ .Buyer then
      (.error (.User .OnlyBuyer), sessions)
    else if !req.validate then
      (.error .Request, sessions)
    else
      match uuid_parse_str req.session_id with
      | none => (.error (.UnparsableUuid req.session_id), sessions)
      | some session_id =>
        match db_get_buyer_signup_session_by_id sessions (uuidString session_id) with
        | none => (.error (.Session (.SessionNotFoundForUuid req.session_id)), sessions)
        | some db_buyer_signup_session =>
          if db_buyer_signup_session.verification_code ≠ req.verification_code then
            (.error (.Session (.SessionVerificationCodeMismatch req.verification_code)), sessions)
          else
            let updated := { db_buyer_signup_session with is_verified := true }
            let sessions2 := db_update_buyer_signup_session sessions updated
            (.ok updated.is_verified, sessions2)

/-- ASCII alphanumeric character test (`0-9A-Za-z`). -/
def is_ascii_alphanumeric (c : Char) : Bool :=
  (48 ≤ c.toNat && c.toNat ≤ 57) ||
  (65 ≤ c.toNat && c.toNat ≤ 90) ||
  (97 ≤ c.toNat && c.toNat ≤ 122)

/-- Embeds the recovery-code generation of `buyer_create_recovery_code`,
`src/gql-api/src/http/handlers.rs` lines 392-396:
`WasmiumRandom::secure_alphabet12().into_iter().take(6).map(char::from)
.collect::<String>()`. The wasmium-random crate is an external dependency
not under `src/`; its output is passed in as the byte list `bytes`,
constrained in the theorems by its contract (modelled from the spec's
code-form table: twelve ASCII alphanumeric bytes). -/
def recovery_code_of_random (bytes : List Nat) : String :=
  String.mk ((bytes.take 6).map Char.ofNat)

/-- Rust `.collect::<String>()` over an iterator of strings:
concatenation. -/
def collect_string (l : List String) : String :=
  l.foldl (fun acc s => acc ++ s) ""

/-- Embeds the verification-code generation of `buyer_register_phone`
(`src/gql-api/src/http/handlers.rs` lines 523-528) and the login-code
generation of `create_login_code` (lines 806-811):
`WasmiumRandom::secure_numeric12().into_iter().take(6)
.map(|item| item.to_string()).collect::<String>()`. The wasmium-random
crate is an external dependency not under `src/`; its output is passed in
as the list `items`, constrained in the theorems by its contract
(modelled from the spec's code-form table: twelve numeric values, one
decimal digit each). -/
def numeric_code_of_random (items : List Nat) : String :=
  collect_string ((items.take 6).map (fun item => toString item))

/-- Embeds `struct BuyerSignupRequest` from `src/gql-api/src/http/models.rs`
(lines 108-119). -/
structure BuyerSignupRequest where
  name : Option String
  email : Option String
  username : String
  password : Option String
  secret : String
  session_id : String
deriving DecidableEq, Repr

/-- Embeds the `Validate` derive of `BuyerSignupRequest`
(`src/gql-api/src/http/models.rs` lines 106-119): optional `name` length
2-20, optional `email` well-formed (the email test itself lives in the
external validator crate and is passed in as the `validate_email`
oracle), `username` length 2-20, `secret` length 4-32; `password` and
`session_id` carry no constraint. -/
def BuyerSignupRequest.validate (validate_email : String → Bool)
    (req : BuyerSignupRequest) : Bool :=
  (match req.name with
   | none => true
   | some n => 2 ≤ n.length && n.length ≤ 20) &&
  (match req.email with
   | none => true
   | some e => validate_email e) &&
  (2 ≤ req.username.length && req.username.length ≤ 20) &&
  (4 ≤ req.secret.length && req.secret.length ≤ 32)

/-- Proto-generated `GenerateImplicitAccountResponse` (fields used by the
handlers). -/
structure GenerateImplicitAccountResponse where
  public_key : String
  secret_key : String
deriving DecidableEq, Repr

/-- Proto-generated `CreateAccountResponse` (fields used by the handlers):
a raw `i32` transaction status and the transaction hash. -/
structure CreateAccountResponse where
  status : Int
  tx_hash : String
deriving DecidableEq, Repr

/-- Proto-generated `AesEncryptDataResponse` (fields used by the
handlers). -/
structure AesEncryptDataResponse where
  cypher : String
deriving DecidableEq, Repr

/-- Proto-generated transaction status enumeration. -/
inductive TxStatus
  | Succeeded
  | Failed
deriving DecidableEq, Repr

/-- Modelled from the spec: `TxStatus::from_i32` of the proto-generated
enumeration (`tonic::include_proto!` — the `.proto` file is not under
`src/`). Only which raw values map to `Some(TxStatus::Failed)` matters to
the embedded handler; the conventional prost numbering `0 = Succeeded,
1 = Failed` is used, with every other value mapping to `None`. -/
def tx_status_from_i32 (n : Int) : Option TxStatus :=
  if n = 0 then some .Succeeded
  else if n = 1 then some .Failed
  else none

/-- Embeds `const NEAR_NETWORK_MODE` from
`src/gql-api/src/http/handlers.rs` (line 51). -/
def NEAR_NETWORK_MODE : String := "testnet"

/-- Embeds `const WALLET_CREATION_DEPOSIT_AMOUNT` from
`src/gql-api/src/http/handlers.rs` (line 50). -/
def WALLET_CREATION_DEPOSIT_AMOUNT : String := "0.2"

/-- Embeds `db_get_users_by_username` from `src/gql-api/src/db/sql.rs`
(lines 549-561): `SELECT ... WHERE username = $1`, all matching rows. -/
def db_get_users_by_username (users : List DbUser) (username : String) :
    List DbUser :=
  users.filter (fun u => u.username == username)

/-- The external collaborators consulted by `buyer_signup`
(`src/gql-api/src/http/handlers.rs`): the validator crate's email test
(external code not under `src/`), the argon2 password hasher, the NEAR
gRPC client (keypair generation, account creation, AES encryption) and the
Pusher client, as oracle functions (spec §6). -/
structure SignupEnv where
  validate_email : String → Bool
  hash_password : String → Except Unit String
  generate_implicit_account : Except Unit GenerateImplicitAccountResponse
  create_account : String → String → String → Except Unit CreateAccountResponse
  pusher_send_result : Except Unit Unit
  aes_encrypt_data : String → String → Except Unit AesEncryptDataResponse

/-- Embeds `buyer_signup` from `src/gql-api/src/http/handlers.rs`
(lines 627-782): buyer role gate; request validation
(`req_body.validate()`, lines 644-646); username availability;
signup-session
lookup and `is_verified` gate; optional password hash; implicit keypair
generation; ledger `create_account` with the fixed deposit, aborting with
`WalletCreationFailed` when the reported status decodes to
`TxStatus::Failed`; two Pusher events; AES encryption of the generated
secret key; and only then the local `db_insert_user` write, followed by
JWT issuance. Returns the handler outcome (token and wallet public key)
together with the user table after the call, so the presence or absence
of the local insert is visible in the result. `now` is in Unix seconds. -/
def buyer_signup (env : SignupEnv) (users : List DbUser)
    (signup_sessions : List DbBuyerSignupSession) (now : Int)
    (new_user_id : String) (role : String) (req : BuyerSignupRequest) :
    Except Error (Jwt × String) × List DbUser :=
  match Role.try_from_str role with
  | .error _ => (.error (.User (.UnallowedUserRole role)), users)
  | .ok r =>
    if r ≠ .Buyer then
      (.error (.User .OnlyBuyer), users)
    else if !(req.validate env.validate_email) then
      (.error .Request, users)
    else if (db_get_users_by_username users req.username).length > 0 then
      (.error (.User .UnavailableUsername), users)
    else
      match uuid_parse_str req.session_id with
      | none => (.error (.UnparsableUuid req.session_id), users)
      | some session_id =>
        match db_get_buyer_signup_session_by_id signup_sessions (uuidString session_id) with
        | none => (.error (.Session (.SessionNotFoundForUuid req.session_id)), users)
        | some db_buyer_signup_session =>
          if !db_buyer_signup_session.is_verified then
            (.error (.User .UnverifiedUser), users)
          else
            let email := req.email.map rust_to_lowercase
            match req.password.map env.hash_password with
            | some (.error _) => (.error .Hash, users)
            | pwd_hashed =>
              let pwd_hash : Option String :=
                match pwd_hashed with
                | some (.ok h) => some h
                | _ => none
              match env.generate_implicit_account with
              | .error _ => (.error .Grpc, users)
              | .ok generated_implicit_account =>
                let user_account_id := req.username ++ "." ++ NEAR_NETWORK_MODE
                match env.create_account user_account_id
                    generated_implicit_account.public_key
                    WALLET_CREATION_DEPOSIT_AMOUNT with
                | .error _ => (.error .Grpc, users)
                | .ok create_account_status =>
                  if tx_status_from_i32 create_account_status.status = some .Failed then
                    (.error (.User .WalletCreationFailed), users)
                  else
                    match env.pusher_send_result with
                    | .error _ => (.error .Pusher, users)
                    | .ok _ =>
                      match env.pusher_send_result with
                      | .error _ => (.error .Pusher, users)
                      | .ok _ =>
                        match env.aes_encrypt_data req.secret
                            generated_implicit_account.secret_key with
                        | .error _ => (.error .Grpc, users)
                        | .ok encrypted_data =>
                          let new_db_user : DbUser :=
                            { id := new_user_id
                              name := req.name
                              username := req.username
                              phone_number := some db_buyer_signup_session.phone_number
                              email := email
                              password := pwd_hash
                              encrypted_secret_key := some encrypted_data.cypher
                              created_at := now
                              wallet_id := user_account_id
                              wallet_balance := "200000000000000000000000"
                              user_type := r
                              user_status := .PhoneVerified }
                          let users2 := users ++ [new_db_user]
                          let jwt_token := create_jwt now new_db_user.id r
                          (.ok (jwt_token, generated_implicit_account.public_key), users2)

deriving instance DecidableEq for Except

theorem char_toNat_ofNat {n : Nat} (h : n.isValidChar) :
    (Char.ofNat n).toNat = n := by
  simp [Char.ofNat, h, Char.ofNatAux, Char.toNat, UInt32.toNat]

theorem char_toLower_idem (c : Char) :
    Char.toLower (Char.toLower c) = Char.toLower c := by
  unfold Char.toLower
  by_cases h : c.toNat ≥ 65 ∧ c.toNat ≤ 90
  · have hv : (c.toNat + 32).isValidChar := Or.inl (by omega)
    have ht : (Char.ofNat (c.toNat + 32)).toNat = c.toNat + 32 := char_toNat_ofNat hv
    have h2 : ¬((c.toNat + 32) ≥ 65 ∧ (c.toNat + 32) ≤ 90) := by omega
    simp only [h, and_self, if_true, ht, h2, if_false]
  · simp only [h, if_false]

theorem rust_to_lowercase_idem (s : String) :
    rust_to_lowercase (rust_to_lowercase s) = rust_to_lowercase s := by
  unfold rust_to_lowercase
  congr 1
  show (s.data.map Char.toLower).map Char.toLower = s.data.map Char.toLower
  rw [List.map_map]
  exact List.map_congr_left (fun c _ => char_toLower_idem c)

/-- C7: `Role` and `UserStatus` are closed enumerations with dual
serialization that round-trips both ways — every role (status) survives
the integer round trip and the lowercase-string round trip — while every
integer outside the defined discriminant set and every unrecognized string
is rejected with an `UnknownUserRole` / `UnknownUserStatus` error, never
coerced to a default. -/
theorem role_status_dual_serialization :
    (∀ r : Role, Role.try_from_i16 r.to_i16 = .ok r) ∧
    (∀ r : Role, Role.try_from_str r.to_string = .ok r) ∧
    (∀ u : UserStatus, UserStatus.try_from_i16 u.to_i16 = .ok u) ∧
    (∀ u : UserStatus, UserStatus.try_from_str u.to_string = .ok u) ∧
    (∀ n : Int, n ≠ 0 → n ≠ 1 → n ≠ 2 → n ≠ 4 →
      Role.try_from_i16 n = .error (.User (.UnknownUserRole (toString n)))) ∧
    (∀ n : Int, n ≠ 0 → n ≠ 1 →
      UserStatus.try_from_i16 n = .error (.User (.UnknownUserStatus (toString n)))) ∧
    (∀ s : String, rust_to_lowercase s ≠ "buyer" → rust_to_lowercase s ≠ "seller" →
      rust_to_lowercase s ≠ "admin" → rust_to_lowercase s ≠ "superadmin" →
      Role.try_from_str s = .error (.User (.UnknownUserRole s))) ∧
    (∀ s : String, rust_to_lowercase s ≠ "unverified" →
      rust_to_lowercase s ≠ "phone_verified" →
      UserStatus.try_from_str s = .error (.User (.UnknownUserStatus s))) := by
  refine ⟨?_, ?_, ?_, ?_, ?_, ?_, ?_, ?_⟩
  · intro r; cases r <;> decide
  · intro r; cases r <;> decide
  · intro u; cases u <;> decide
  · intro u; cases u <;> decide
  · intro n h0 h1 h2 h4
    simp [Role.try_from_i16, h0, h1, h2, h4]
  · intro n h0 h1
    simp [UserStatus.try_from_i16, h0, h1]
  · intro s h1 h2 h3 h4
    simp [Role.try_from_str, h1, h2, h3, h4]
  · intro s h1 h2
    simp [UserStatus.try_from_str, h1, h2]

theorem role_status_dual_serialization_witness :
    Role.try_from_i16 3 = .error (.User (.UnknownUserRole (toString (3 : Int)))) ∧
    UserStatus.try_from_i16 7 = .error (.User (.UnknownUserStatus (toString (7 : Int)))) ∧
    Role.try_from_str "wizard" = .error (.User (.UnknownUserRole "wizard")) ∧
    UserStatus.try_from_str "frozen" = .error (.User (.UnknownUserStatus "frozen")) ∧
    Role.try_from_i16 (Role.to_i16 .SuperAdmin) = .ok .SuperAdmin :=
  ⟨role_status_dual_serialization.2.2.2.2.1 3
      (by decide) (by decide) (by decide) (by decide),
   role_status_dual_serialization.2.2.2.2.2.1 7 (by decide) (by decide),
   role_status_dual_serialization.2.2.2.2.2.2.1 "wizard"
      (by decide) (by decide) (by decide) (by decide),
   role_status_dual_serialization.2.2.2.2.2.2.2 "frozen" (by decide) (by decide),
   role_status_dual_serialization.1 .SuperAdmin⟩

/-- C9 counterexample: `Role::try_from` does not yield the same `Result`
on a string and on its lowercase form — the error payload carries the
original string — so at input `"A"` the two results differ. -/
theorem role_parse_result_differs_on_case :
    Role.try_from_str "A" ≠ Role.try_from_str (rust_to_lowercase "A") := by
  decide

/-- C9 (amended): role-name parsing is case-insensitive in outcome: for
every string `s` and role `r`, `Role::try_from(s)` succeeds with `r`
exactly when `Role::try_from` of the lowercase of `s` succeeds with `r`
(so `"ADMIN"` and `"Admin"` parse to the same role as `"admin"`); only
the string carried inside the rejection error differs between the two
calls. -/
theorem role_parse_case_insensitive_ok (s : String) (r : Role) :
    Role.try_from_str s = .ok r ↔
      Role.try_from_str (rust_to_lowercase s) = .ok r := by
  unfold Role.try_from_str
  rw [rust_to_lowercase_idem]
  by_cases h1 : rust_to_lowercase s = "buyer" <;>
    by_cases h2 : rust_to_lowercase s = "seller" <;>
      by_cases h3 : rust_to_lowercase s = "admin" <;>
        by_cases h4 : rust_to_lowercase s = "superadmin" <;>
          simp [h1, h2, h3, h4]

theorem role_find_isSome_of_mem {r : Role} {R : List Role} (h : r ∈ R) :
    (R.find? (fun role => decide (role = r))).isSome := by
  rw [List.find?_isSome]
  exact ⟨r, h, by simp⟩

theorem role_find_eq_none_of_not_mem {r : Role} {R : List Role} (h : r ∉ R) :
    R.find? (fun role => decide (role = r)) = none := by
  rw [List.find?_eq_none]
  intro x hx
  simp only [decide_eq_true_eq]
  intro hxr
  exact h (hxr ▸ hx)

theorem role_find_eq_some_of_mem {r : Role} {R : List Role} (h : r ∈ R) :
    R.find? (fun role => decide (role = r)) = some r := by
  have h1 := role_find_isSome_of_mem h
  rcases Option.isSome_iff_exists.mp h1 with ⟨x, hx⟩
  have h2 := List.find?_some hx
  simp only [decide_eq_true_eq] at h2
  rw [hx, h2]

theorem role_to_string_round_trip (r : Role) :
    Role.try_from_str r.to_string = .ok r := by
  cases r <;> rfl

theorem decode_jwt_ok_of {now : Int} (c : Claims) (h : ¬ c.exp < now) :
    decode_jwt now { claims := c, secret := JWT_SECRET } = .ok c := by
  unfold decode_jwt
  rw [if_neg (by simp), if_neg h]

theorem decode_jwt_expired_of {now : Int} (c : Claims) (h : c.exp < now) :
    decode_jwt now { claims := c, secret := JWT_SECRET } =
      .error .ExpiredSignature := by
  unfold decode_jwt
  rw [if_neg (by simp), if_pos h]

theorem decode_create_jwt_ok {T t : Int} (uid : String) (r : Role)
    (ht : t ≤ T + 60 * 60) :
    decode_jwt t (create_jwt T uid r) =
      .ok { sub := uid, role := r.to_string, exp := T + 60 * 60 } :=
  decode_jwt_ok_of { sub := uid, role := r.to_string, exp := T + 60 * 60 }
    (by show ¬ T + 60 * 60 < t; omega)

theorem decode_create_jwt_expired {T t : Int} (uid : String) (r : Role)
    (ht : T + 60 * 60 < t) :
    decode_jwt t (create_jwt T uid r) = .error .ExpiredSignature :=
  decode_jwt_expired_of { sub := uid, role := r.to_string, exp := T + 60 * 60 }
    (by show T + 60 * 60 < t; omega)

/-- C3: for every role and every UUID subject, a credential issued by
`create_jwt` at time `T` carries expiry exactly `T` + 60 minutes; at any
validation time up to that horizon it decodes to the same subject and
role (and `authorize` with the role allowed returns the subject id), and
at any time strictly after the horizon decoding fails with the expiry
error — with the spec-mandated zero clock-skew tolerance — which
`authorize` surfaces as `JWTTokenError` for every required-role set. -/
theorem jwt_issue_validate_roundtrip (uid : String) (u : List Char) (r : Role)
    (T t : Int) (hu : uuid_parse_str uid = some u) :
    (create_jwt T uid r).claims.exp = T + 60 * 60 ∧
    (t ≤ T + 60 * 60 →
      decode_jwt t (create_jwt T uid r) =
        .ok { sub := uid, role := r.to_string, exp := T + 60 * 60 } ∧
      Role.try_from_str (create_jwt T uid r).claims.role = .ok r ∧
      authorize [r] (create_jwt T uid r) t = .ok u) ∧
    (T + 60 * 60 < t →
      decode_jwt t (create_jwt T uid r) = .error .ExpiredSignature ∧
      ∀ R : List Role, authorize R (create_jwt T uid r) t =
        .error (.Auth .JWTTokenError)) := by
  refine ⟨rfl, fun ht => ⟨decode_create_jwt_ok uid r ht, role_to_string_round_trip r, ?_⟩,
    fun ht => ⟨decode_create_jwt_expired uid r ht, fun R => ?_⟩⟩
  · have hfind : [r].find? (fun role => decide (role = r)) = some r :=
      role_find_eq_some_of_mem (List.mem_singleton.mpr rfl)
    unfold authorize
    rw [decode_create_jwt_ok uid r ht]
    simp only [role_to_string_round_trip r, hfind, Option.isNone_some,
      Bool.false_eq_true, if_false, hu]
  · simp [authorize, decode_create_jwt_expired uid r ht]

theorem jwt_issue_validate_roundtrip_witness :
    authorize [Role.Buyer]
      (create_jwt 0 "123e4567-e89b-12d3-a456-426614174000" .Buyer) 3600 =
      .ok "123e4567e89b12d3a456426614174000".data ∧
    decode_jwt 3601 (create_jwt 0 "123e4567-e89b-12d3-a456-426614174000" .Buyer) =
      .error .ExpiredSignature :=
  ⟨((jwt_issue_validate_roundtrip "123e4567-e89b-12d3-a456-426614174000"
      "123e4567e89b12d3a456426614174000".data .Buyer 0 3600 (by decide)).2.1
      (by norm_num)).2.2,
   ((jwt_issue_validate_roundtrip "123e4567-e89b-12d3-a456-426614174000"
      "123e4567e89b12d3a456426614174000".data .Buyer 0 3601 (by decide)).2.2
      (by norm_num)).1⟩

/-- C4: for every required-role set and credential role, `authorize`
succeeds exactly when the credential role is a member of the set — there
is no role hierarchy: membership yields the subject id, non-membership
yields `NoPermissionError`. -/
theorem authorize_exact_role_membership (R : List Role) (r : Role)
    (uid : String) (u : List Char) (T t : Int)
    (hu : uuid_parse_str uid = some u) (ht : t ≤ T + 60 * 60) :
    (r ∈ R → authorize R (create_jwt T uid r) t = .ok u) ∧
    (r ∉ R → authorize R (create_jwt T uid r) t =
      .error (.Auth .NoPermissionError)) := by
  constructor
  · intro hmem
    have hfind := role_find_eq_some_of_mem hmem
    unfold authorize
    rw [decode_create_jwt_ok uid r ht]
    simp only [role_to_string_round_trip r, hfind, Option.isNone_some,
      Bool.false_eq_true, if_false, hu]
  · intro hnot
    have hfind := role_find_eq_none_of_not_mem hnot
    unfold authorize
    rw [decode_create_jwt_ok uid r ht]
    simp only [role_to_string_round_trip r, hfind, Option.isNone_none, if_true]

theorem authorize_exact_role_membership_witness :
    authorize [Role.Admin]
      (create_jwt 0 "123e4567-e89b-12d3-a456-426614174000" .Buyer) 0 =
      .error (.Auth .NoPermissionError) ∧
    authorize [Role.Admin, Role.Buyer]
      (create_jwt 0 "123e4567-e89b-12d3-a456-426614174000" .Buyer) 0 =
      .ok "123e4567e89b12d3a456426614174000".data ∧
    authorize [Role.SuperAdmin]
      (create_jwt 0 "123e4567-e89b-12d3-a456-426614174000" .Admin) 0 =
      .error (.Auth .NoPermissionError) :=
  ⟨(authorize_exact_role_membership [Role.Admin] .Buyer
      "123e4567-e89b-12d3-a456-426614174000"
      "123e4567e89b12d3a456426614174000".data 0 0 (by decide) (by norm_num)).2
      (by decide),
   (authorize_exact_role_membership [Role.Admin, Role.Buyer] .Buyer
      "123e4567-e89b-12d3-a456-426614174000"
      "123e4567e89b12d3a456426614174000".data 0 0 (by decide) (by norm_num)).1
      (by decide),
   (authorize_exact_role_membership [Role.SuperAdmin] .Admin
      "123e4567-e89b-12d3-a456-426614174000"
      "123e4567e89b12d3a456426614174000".data 0 0 (by decide) (by norm_num)).2
      (by decide)⟩

/-- C10: a credential whose signature verifies, whose expiry has not
passed and whose role parses and is a member of the required-role set is
still rejected — with `UnparsableUuid`, after the role check — whenever
its subject claim is not a well-formed UUID string. -/
theorem authorize_unparsable_subject (R : List Role) (c : Claims) (t : Int)
    (r : Role) (hexp : ¬ c.exp < t) (hrole : Role.try_from_str c.role = .ok r)
    (hmem : r ∈ R) (hsub : uuid_parse_str c.sub = none) :
    authorize R { claims := c, secret := JWT_SECRET } t =
      .error (.UnparsableUuid c.sub) := by
  have hfind := role_find_eq_some_of_mem hmem
  unfold authorize
  rw [decode_jwt_ok_of c hexp]
  simp only [hrole, hfind, Option.isNone_some, Bool.false_eq_true, if_false, hsub]

theorem authorize_unparsable_subject_witness :
    authorize [Role.Buyer]
      { claims := { sub := "not-a-uuid", role := "buyer", exp := 10 }
        secret := JWT_SECRET } 0 =
      .error (.UnparsableUuid "not-a-uuid") :=
  authorize_unparsable_subject [Role.Buyer]
    { sub := "not-a-uuid", role := "buyer", exp := 10 } 0 .Buyer
    (by decide) (by decide) (by decide) (by decide)

/-- Concrete 44-character public key for witnesses, satisfying the
request validator's 40-45 length bound. -/
def test_pub_key : String :=
  "ed25519:AAAAAAAAAAAAAAAAAAAAAAAAAAAAAAAAAAAA"

/-- Concrete collaborator environment for witnesses: the signature oracle
accepts, the ledger lists one key, Pusher delivery succeeds. -/
def test_login_env : LoginEnv :=
  { verify_signature := fun _ _ _ => .ok true
    get_account_keys := fun _ => .ok [{ public_key := test_pub_key }]
    pusher_send_result := .ok () }

/-- Concrete buyer row for witnesses. -/
def test_buyer : DbUser :=
  { id := "11111111111111111111111111111111", name := none, username := "alice"
    phone_number := none, email := none, password := none
    encrypted_secret_key := none, created_at := 0
    wallet_id := "alice.testnet", wallet_balance := "0"
    user_type := .Buyer, user_status := .PhoneVerified }

/-- Concrete login-verification request for witnesses. -/
def test_login_req (code : String) : VerifyLoginCodeRequest :=
  { code := code, signature := "sig", wallet_id := "alice.testnet"
    pub_key := test_pub_key }

/-- C5 counterexample: after expiry the handler does not report an
expired-session error "regardless of whether the submitted code is
correct": the session is fetched by the submitted code, so a wrong code
on an expired (or any) session reports `NoSessionForToken`, not
`ExpiredSession`. Store: one session created at 0 (expiry 300000 ms),
call at 301000 ms with the wrong code; the request passes the source's
`req_body.validate()` gate (44-char `pub_key`, 13-char `wallet_id`), so
this is the trace the program itself takes. -/
theorem expired_session_wrong_code_not_expired_error :
    (verify_login_code test_login_env [test_buyer]
        [(create_login_code 0 "s1" "111111" []).1] 301000 "buyer"
        (test_login_req "222222")).1 =
      .error (.Session (.NoSessionForToken "222222")) ∧
    (verify_login_code test_login_env [test_buyer]
        [(create_login_code 0 "s1" "111111" []).1] 301000 "buyer"
        (test_login_req "222222")).1 ≠
      .error (.Session (.ExpiredSession "222222")) := by
  constructor
  · decide
  · decide

/-- C5 (amended): a passwordless-login session is created with expiry
exactly 5 minutes (300000 ms) after creation; while unused, for a request
that passes the body validation, a submission of the correct code at or
before the expiry succeeds (provided the signature, wallet-user, key and
delivery collaborators succeed), and a submission of the correct code
strictly after the expiry fails with `ExpiredSession`. The code comparison is the lookup itself — sessions are
fetched by submitted code — so it precedes the expiry check, and a wrong
code is reported as `NoSessionForToken` whether or not some session is
expired. -/
theorem login_session_expiry (now_ms t : Int) (new_id code : String)
    (env : LoginEnv) (users : List DbUser) (sessions0 : List DbSession)
    (s : DbSession) (db_user : DbUser) (keys : List AccountKey)
    (req : VerifyLoginCodeRequest) (hval : req.validate = true) :
    ((create_login_code now_ms new_id code sessions0).1.expires_at =
      now_ms + 300000) ∧
    (db_get_session_by_login_code sessions0 req.code = some s →
      s.is_used = false →
      t ≤ s.expires_at →
      env.verify_signature (bs58_encode s.login_code) req.pub_key req.signature
        = .ok true →
      db_get_user_by_wallet_id users req.wallet_id = some db_user →
      env.get_account_keys db_user.wallet_id = .ok keys →
      (keys.find? (fun key => key.public_key == req.pub_key)) = some
        { public_key := req.pub_key } →
      db_user.user_type = .Buyer →
      env.pusher_send_result = .ok () →
      (verify_login_code env users sessions0 t "buyer" req).1 = .ok ()) ∧
    (db_get_session_by_login_code sessions0 req.code = some s →
      s.is_used = false →
      t > s.expires_at →
      (verify_login_code env users sessions0 t "buyer" req).1 =
        .error (.Session (.ExpiredSession req.code))) ∧
    (db_get_session_by_login_code sessions0 req.code = none →
      (verify_login_code env users sessions0 t "buyer" req).1 =
        .error (.Session (.NoSessionForToken req.code))) := by
  have hrole : Role.try_from_str "buyer" = .ok .Buyer := by decide
  have hpre : verify_login_code_pre "buyer" req = none := by
    unfold verify_login_code_pre
    rw [hrole]
    simp [hval]
  refine ⟨rfl, ?_, ?_, ?_⟩
  · intro hfound hused ht hsig huser hkeys hfind htype hpush
    have hread : verify_login_code_read sessions0 t req.code = .ok s := by
      unfold verify_login_code_read
      rw [hfound]
      simp only [hused, Bool.false_eq_true, if_false]
      rw [if_neg (by omega)]
    simp only [verify_login_code, hpre, hread, verify_login_code_checked,
      hsig, Bool.not_true, Bool.false_eq_true, if_false, huser, hkeys,
      hfind, Option.isNone_some, htype, ne_eq, not_true_eq_false, hpush]
  · intro hfound hused ht
    have hread : verify_login_code_read sessions0 t req.code =
        .error (.Session (.ExpiredSession req.code)) := by
      unfold verify_login_code_read
      rw [hfound]
      simp only [hused, Bool.false_eq_true, if_false]
      rw [if_pos (by omega)]
    simp only [verify_login_code, hpre, hread]
  · intro hnone
    have hread : verify_login_code_read sessions0 t req.code =
        .error (.Session (.NoSessionForToken req.code)) := by
      unfold verify_login_code_read
      rw [hnone]
    simp only [verify_login_code, hpre, hread]

theorem login_session_expiry_witness :
    (create_login_code 0 "s1" "111111" []).1.expires_at = 300000 ∧
    (verify_login_code test_login_env [test_buyer]
        [(create_login_code 0 "s1" "111111" []).1] 299000 "buyer"
        (test_login_req "111111")).1 = .ok () ∧
    (verify_login_code test_login_env [test_buyer]
        [(create_login_code 0 "s1" "111111" []).1] 301000 "buyer"
        (test_login_req "111111")).1 =
      .error (.Session (.ExpiredSession "111111")) := by
  refine ⟨(login_session_expiry 0 0 "s1" "111111" test_login_env [] []
      (create_login_code 0 "s1" "111111" []).1 test_buyer []
      (test_login_req "111111") (by decide)).1, ?_, ?_⟩
  · exact (login_session_expiry 0 299000 "s1" "111111" test_login_env
      [test_buyer] [(create_login_code 0 "s1" "111111" []).1]
      (create_login_code 0 "s1" "111111" []).1 test_buyer
      [{ public_key := test_pub_key }] (test_login_req "111111")
      (by decide)).2.1
      (by decide) (by decide) (by decide) rfl (by decide) rfl (by decide)
      (by decide) rfl
  · exact (login_session_expiry 0 301000 "s1" "111111" test_login_env
      [test_buyer] [(create_login_code 0 "s1" "111111" []).1]
      (create_login_code 0 "s1" "111111" []).1 test_buyer
      [{ public_key := test_pub_key }] (test_login_req "111111")
      (by decide)).2.2.1
      (by decide) (by decide) (by decide)

/-- Concrete already-consumed recovery session for the C1 counterexample:
`is_recovered` is already `true`. -/
def test_recovery_session : DbBuyerRecoverySession :=
  { id := "22222222222222222222222222222222", created_at := 0
    recovery_code := "AB12CD", phone_number := "+15551234567"
    is_recovered := true
    created_by_user := "11111111111111111111111111111111" }

/-- C1 counterexample: a recovery session that has already been consumed
(`is_recovered = true`) does not reject a further verify call with the
correct code — `buyer_verify_recovery_code` never reads the consumed flag
and succeeds again, issuing a fresh JWT, instead of failing with a
session-consumed error. -/
theorem consumed_recovery_session_verifies_again :
    (buyer_verify_recovery_code "buyer" [test_recovery_session] [test_buyer] 0
      { session_id := "22222222-2222-2222-2222-222222222222"
        recovery_code := "AB12CD" }).1 =
      .ok (create_jwt 0 test_buyer.id .Buyer, test_recovery_session) := by
  decide

/-- C1 (amended): only the passwordless-login flow enforces the single-use
guarantee: for a request that passes the body validation, a login session
with `is_used = true` rejects every further verify call with
`UsedSession`, before any code comparison or signature check. The
phone-signup and recovery verify handlers never read their consumed flag
(`is_verified` / `is_recovered`): on a consumed session a validated
verify call with the correct code succeeds again exactly as on a fresh
session (and the ticket-redemption reservations carry no consumed flag at
all). -/
theorem consumed_session_rejection_only_login_flow (env : LoginEnv)
    (users : List DbUser) (sessions : List DbSession)
    (rsessions : List DbBuyerRecoverySession)
    (ssessions : List DbBuyerSignupSession) (s : DbSession)
    (rs : DbBuyerRecoverySession) (ss : DbBuyerSignupSession)
    (du : DbUser) (now : Int) (sid : List Char)
    (req : VerifyLoginCodeRequest) (rreq : BuyerVerifyRecoveryCodeRequest)
    (sreq : BuyerVerifyPhoneRequest) :
    (req.validate = true →
      db_get_session_by_login_code sessions req.code = some s →
      s.is_used = true →
      (verify_login_code env users sessions now "buyer" req).1 =
        .error (.Session (.UsedSession req.code))) ∧
    (rreq.validate = true →
      uuid_parse_str rreq.session_id = some sid →
      db_get_buyer_recovery_session_by_id rsessions (uuidString sid) = some rs →
      rs.is_recovered = true →
      rs.recovery_code = rreq.recovery_code →
      db_get_user_by_id users rs.created_by_user = some du →
      (buyer_verify_recovery_code "buyer" rsessions users now rreq).1 =
        .ok (create_jwt now du.id .Buyer, { rs with is_recovered := true })) ∧
    (sreq.validate = true →
      uuid_parse_str sreq.session_id = some sid →
      db_get_buyer_signup_session_by_id ssessions (uuidString sid) = some ss →
      ss.is_verified = true →
      ss.verification_code = sreq.verification_code →
      (buyer_verify_phone "buyer" ssessions sreq).1 = .ok true) := by
  have hrole : Role.try_from_str "buyer" = .ok .Buyer := by decide
  refine ⟨?_, ?_, ?_⟩
  · intro hval hfound hused
    have hpre : verify_login_code_pre "buyer" req = none := by
      unfold verify_login_code_pre
      rw [hrole]
      simp [hval]
    have hread : verify_login_code_read sessions now req.code =
        .error (.Session (.UsedSession req.code)) := by
      unfold verify_login_code_read
      rw [hfound]
      simp only [hused, if_true]
    simp only [verify_login_code, hpre, hread]
  · intro hval hsid hfound hconsumed hcode hdu
    simp only [buyer_verify_recovery_code, hrole, ne_eq, not_true_eq_false,
      if_false, hval, Bool.not_true, Bool.false_eq_true, hsid, hfound,
      hcode, not_false_eq_true, hdu]
  · intro hval hsid hfound hconsumed hcode
    simp only [buyer_verify_phone, hrole, ne_eq, not_true_eq_false,
      if_false, hval, Bool.not_true, Bool.false_eq_true, hsid, hfound,
      hcode, not_false_eq_true]

theorem consumed_session_rejection_only_login_flow_witness :
    (verify_login_code test_login_env [test_buyer]
        [{ id := "s1", expires_at := 300000, login_code := "111111"
           is_used := true, user_id := none }] 100 "buyer"
        (test_login_req "111111")).1 =
      .error (.Session (.UsedSession "111111")) ∧
    (buyer_verify_phone "buyer"
        [{ id := "33333333333333333333333333333333", created_at := 0
           verification_code := "654321", phone_number := "+15551234567"
           is_verified := true }]
        { session_id := "33333333-3333-3333-3333-333333333333"
          verification_code := "654321" }).1 = .ok true :=
  ⟨(consumed_session_rejection_only_login_flow test_login_env [test_buyer]
      [{ id := "s1", expires_at := 300000, login_code := "111111"
         is_used := true, user_id := none }] [] []
      { id := "s1", expires_at := 300000, login_code := "111111"
        is_used := true, user_id := none }
      test_recovery_session
      { id := "33333333333333333333333333333333", created_at := 0
        verification_code := "654321", phone_number := "+15551234567"
        is_verified := true }
      test_buyer 100 "33333333333333333333333333333333".data
      (test_login_req "111111")
      { session_id := "22222222-2222-2222-2222-222222222222"
        recovery_code := "AB12CD" }
      { session_id := "33333333-3333-3333-3333-333333333333"
        verification_code := "654321" }).1 (by decide) (by decide)
      (by decide),
   (consumed_session_rejection_only_login_flow test_login_env [test_buyer]
      [{ id := "s1", expires_at := 300000, login_code := "111111"
         is_used := true, user_id := none }] []
      [{ id := "33333333333333333333333333333333", created_at := 0
         verification_code := "654321", phone_number := "+15551234567"
         is_verified := true }]
      { id := "s1", expires_at := 300000, login_code := "111111"
        is_used := true, user_id := none }
      test_recovery_session
      { id := "33333333333333333333333333333333", created_at := 0
        verification_code := "654321", phone_number := "+15551234567"
        is_verified := true }
      test_buyer 100 "33333333333333333333333333333333".data
      (test_login_req "111111")
      { session_id := "22222222-2222-2222-2222-222222222222"
        recovery_code := "AB12CD" }
      { session_id := "33333333-3333-3333-3333-333333333333"
        verification_code := "654321" }).2.2 (by decide) (by decide)
      (by decide) (by decide) (by decide)⟩

theorem verify_login_code_checked_ok (env : LoginEnv) (users : List DbUser)
    (sessions : List DbSession) (s : DbSession) (req : VerifyLoginCodeRequest)
    (now : Int) (db_user : DbUser) (keys : List AccountKey)
    (hsig : env.verify_signature (bs58_encode s.login_code) req.pub_key
      req.signature = .ok true)
    (huser : db_get_user_by_wallet_id users req.wallet_id = some db_user)
    (hkeys : env.get_account_keys db_user.wallet_id = .ok keys)
    (hfind : keys.find? (fun key => key.public_key == req.pub_key) =
      some { public_key := req.pub_key })
    (htype : db_user.user_type = .Buyer)
    (hpush : env.pusher_send_result = .ok ()) :
    verify_login_code_checked env users sessions s req now =
      (.ok (), db_update_session_info sessions s.id db_user.id true) := by
  simp only [verify_login_code_checked, hsig, Bool.not_true,
    Bool.false_eq_true, if_false, huser, hkeys, hfind, Option.isNone_some,
    htype, ne_eq, not_true_eq_false, hpush]

theorem verify_login_code_read_fresh (sessions : List DbSession)
    (now : Int) (code : String) (s : DbSession)
    (hfound : db_get_session_by_login_code sessions code = some s)
    (hunused : s.is_used = false) (ht : ¬ now > s.expires_at) :
    verify_login_code_read sessions now code = .ok s := by
  unfold verify_login_code_read
  rw [hfound]
  simp only [hunused, Bool.false_eq_true, if_false]
  rw [if_neg ht]

/-- C2 counterexample: two concurrent verify calls with the same correct
code against one unconsumed, unexpired login session, scheduled so that
both perform their `SELECT` before either performs its `UPDATE` — a
schedule nothing in the source excludes, since the consumption is not one
atomic predicate-guarded mutation — both succeed, instead of exactly one
succeeding and the other failing with the session-consumed error. Both
requests pass the source's `req_body.validate()` gate (44-char `pub_key`,
13-char `wallet_id`), so this is a trace of validly-shaped program
requests. -/
theorem concurrent_verify_double_success :
    (two_verify_calls_interleaved test_login_env [test_buyer]
      [(create_login_code 0 "s1" "111111" []).1] 100 "buyer"
      (test_login_req "111111") (test_login_req "111111")).1 =
      (Except.ok (), Except.ok ()) := by
  decide

/-- C2 (amended): session consumption is a read-check-then-write sequence,
not one atomic store mutation: the `UPDATE` of `db_update_session_info`
matches its row by id alone, with no used/expiry/code predicate, and so
rewrites even an already-consumed row. Sequentially this still enforces
single use — after a successful verify, a second verify call observes
`is_used` and fails with `UsedSession` — but in the interleaving in which
both calls read before either writes, two concurrent validly-shaped
verify calls with the same correct code both succeed. -/
theorem session_consumption_check_then_write (env : LoginEnv)
    (users : List DbUser) (s : DbSession) (req : VerifyLoginCodeRequest)
    (now : Int) (db_user : DbUser) (keys : List AccountKey)
    (hval : req.validate = true)
    (hcode : s.login_code = req.code)
    (hunused : s.is_used = false)
    (ht : ¬ now > s.expires_at)
    (hsig : env.verify_signature (bs58_encode s.login_code) req.pub_key
      req.signature = .ok true)
    (huser : db_get_user_by_wallet_id users req.wallet_id = some db_user)
    (hkeys : env.get_account_keys db_user.wallet_id = .ok keys)
    (hfind : keys.find? (fun key => key.public_key == req.pub_key) =
      some { public_key := req.pub_key })
    (htype : db_user.user_type = .Buyer)
    (hpush : env.pusher_send_result = .ok ()) :
    (∀ (x : DbSession) (uid : String) (b : Bool),
      db_update_session_info [x] x.id uid b =
        [{ x with is_used := b, user_id := some uid }]) ∧
    ((verify_login_code env users [s] now "buyer" req).1 = .ok () ∧
     (verify_login_code env users
        (verify_login_code env users [s] now "buyer" req).2 now "buyer"
        req).1 = .error (.Session (.UsedSession req.code))) ∧
    (two_verify_calls_interleaved env users [s] now "buyer" req req).1 =
      (.ok (), .ok ()) := by
  have hrole : Role.try_from_str "buyer" = .ok .Buyer := by decide
  have hpre : verify_login_code_pre "buyer" req = none := by
    unfold verify_login_code_pre
    rw [hrole]
    simp [hval]
  have hfound : db_get_session_by_login_code [s] req.code = some s := by
    simp [db_get_session_by_login_code, List.find?, hcode]
  have hread := verify_login_code_read_fresh [s] now req.code s hfound hunused ht
  have hchecked := fun sessions =>
    verify_login_code_checked_ok env users sessions s req now db_user keys
      hsig huser hkeys hfind htype hpush
  have hverify : verify_login_code env users [s] now "buyer" req =
      (.ok (), db_update_session_info [s] s.id db_user.id true) := by
    simp only [verify_login_code, hpre, hread, hchecked [s]]
  have hst1 : db_update_session_info [s] s.id db_user.id true =
      [{ s with is_used := true, user_id := some db_user.id }] := by
    simp [db_update_session_info]
  have hfound2 : db_get_session_by_login_code
      [{ s with is_used := true, user_id := some db_user.id }] req.code =
      some { s with is_used := true, user_id := some db_user.id } := by
    simp [db_get_session_by_login_code, List.find?, hcode]
  refine ⟨fun x uid b => by simp [db_update_session_info], ⟨?_, ?_⟩, ?_⟩
  · rw [hverify]
  · have hread2 : verify_login_code_read
        [{ s with is_used := true, user_id := some db_user.id }] now req.code =
        .error (.Session (.UsedSession req.code)) := by
      unfold verify_login_code_read
      rw [hfound2]
      simp
    rw [hverify, hst1]
    simp only [verify_login_code, hpre, hread2]
  · simp only [two_verify_calls_interleaved, hpre, hread, hchecked [s],
      hchecked (db_update_session_info [s] s.id db_user.id true)]

theorem session_consumption_check_then_write_witness :
    (verify_login_code test_login_env [test_buyer]
        [(create_login_code 0 "s1" "111111" []).1] 100 "buyer"
        (test_login_req "111111")).1 = .ok () ∧
    (verify_login_code test_login_env [test_buyer]
        (verify_login_code test_login_env [test_buyer]
          [(create_login_code 0 "s1" "111111" []).1] 100 "buyer"
          (test_login_req "111111")).2 100 "buyer"
        (test_login_req "111111")).1 =
      .error (.Session (.UsedSession "111111")) :=
  ⟨((session_consumption_check_then_write test_login_env [test_buyer]
      (create_login_code 0 "s1" "111111" []).1 (test_login_req "111111")
      100 test_buyer [{ public_key := test_pub_key }]
      (by decide) (by decide) (by decide) (by decide) (by decide)
      (by decide) rfl (by decide) (by decide) rfl).2.1).1,
   ((session_consumption_check_then_write test_login_env [test_buyer]
      (create_login_code 0 "s1" "111111" []).1 (test_login_req "111111")
      100 test_buyer [{ public_key := test_pub_key }]
      (by decide) (by decide) (by decide) (by decide) (by decide)
      (by decide) rfl (by decide) (by decide) rfl).2.1).2⟩

/-- C6: in the wallet-linked signup orchestration, for a request that
passes the body validation, a ledger-reported failure status from
`create_account` aborts the flow with `WalletCreationFailed` and leaves
the user table unchanged (no local user row); and conversely, whenever the flow does insert a local user row, the
implicit-account generation, the ledger account creation (with a
non-failure status) and the secret encryption must all have succeeded
first. -/
theorem signup_aborts_on_wallet_failure (env : SignupEnv)
    (users : List DbUser) (ssessions : List DbBuyerSignupSession)
    (now : Int) (new_user_id : String) (req : BuyerSignupRequest)
    (sid : List Char) (ss : DbBuyerSignupSession)
    (ia : GenerateImplicitAccountResponse) (resp : CreateAccountResponse) :
    (BuyerSignupRequest.validate env.validate_email req = true →
      db_get_users_by_username users req.username = [] →
      uuid_parse_str req.session_id = some sid →
      db_get_buyer_signup_session_by_id ssessions (uuidString sid) = some ss →
      ss.is_verified = true →
      (∀ p, req.password = some p → ∃ h, env.hash_password p = .ok h) →
      env.generate_implicit_account = .ok ia →
      env.create_account (req.username ++ "." ++ NEAR_NETWORK_MODE)
        ia.public_key WALLET_CREATION_DEPOSIT_AMOUNT = .ok resp →
      tx_status_from_i32 resp.status = some .Failed →
      buyer_signup env users ssessions now new_user_id "buyer" req =
        (.error (.User .WalletCreationFailed), users)) ∧
    ((buyer_signup env users ssessions now new_user_id "buyer" req).2 ≠ users →
      ∃ ia2, env.generate_implicit_account = .ok ia2 ∧
        ∃ resp2, env.create_account (req.username ++ "." ++ NEAR_NETWORK_MODE)
            ia2.public_key WALLET_CREATION_DEPOSIT_AMOUNT = .ok resp2 ∧
          tx_status_from_i32 resp2.status ≠ some .Failed ∧
          ∃ enc, env.aes_encrypt_data req.secret ia2.secret_key = .ok enc) := by
  have hrole : Role.try_from_str "buyer" = .ok .Buyer := by decide
  constructor
  · intro hval husername hsid hfound hver hpwd hgen hca hfail
    rcases hp : req.password with _ | p
    · simp only [buyer_signup, hrole, ne_eq, not_true_eq_false, if_false,
        hval, husername, List.length_nil, gt_iff_lt, lt_irrefl, hsid,
        hfound, hver, Bool.not_true, Bool.false_eq_true, hp,
        Option.map_none', hgen, hca, hfail, if_true]
    · rcases hpwd p hp with ⟨h, hh⟩
      simp only [buyer_signup, hrole, ne_eq, not_true_eq_false, if_false,
        hval, husername, List.length_nil, gt_iff_lt, lt_irrefl, hsid,
        hfound, hver, Bool.not_true, Bool.false_eq_true, hp,
        Option.map_some', hh, hgen, hca, hfail, if_true]
  · intro hinsert
    unfold buyer_signup at hinsert
    rw [hrole] at hinsert
    simp only [ne_eq, not_true_eq_false, if_false] at hinsert
    repeat' split at hinsert
    all_goals first
      | (exfalso; simp at hinsert; done)
      | exact ⟨_, by assumption, _, by assumption, by assumption, _,
          by assumption⟩

/-- Concrete signup session (already phone-verified) for witnesses. -/
def test_signup_session : DbBuyerSignupSession :=
  { id := "33333333333333333333333333333333", created_at := 0
    verification_code := "654321", phone_number := "+15551234567"
    is_verified := true }

/-- Concrete signup environment whose ledger `create_account` reports a
failure status (`1` decodes to `TxStatus::Failed`). -/
def test_fail_signup_env : SignupEnv :=
  { validate_email := fun _ => true
    hash_password := fun _ => .ok "HASH"
    generate_implicit_account := .ok { public_key := "PK", secret_key := "SK" }
    create_account := fun _ _ _ => .ok { status := 1, tx_hash := "TX" }
    pusher_send_result := .ok ()
    aes_encrypt_data := fun _ _ => .ok { cypher := "CY" } }

theorem signup_aborts_on_wallet_failure_witness :
    buyer_signup test_fail_signup_env [] [test_signup_session] 0 "u2" "buyer"
      { name := none, email := none, username := "alice", password := none
        secret := "passphrase"
        session_id := "33333333-3333-3333-3333-333333333333" } =
      (.error (.User .WalletCreationFailed), []) :=
  (signup_aborts_on_wallet_failure test_fail_signup_env [] [test_signup_session]
    0 "u2"
    { name := none, email := none, username := "alice", password := none
      secret := "passphrase"
      session_id := "33333333-3333-3333-3333-333333333333" }
    "33333333333333333333333333333333".data test_signup_session
    { public_key := "PK", secret_key := "SK" }
    { status := 1, tx_hash := "TX" }).1
    (by decide) rfl (by decide) (by decide) (by decide) (by simp) rfl rfl
    (by decide)

theorem collect_string_data (acc : String) (l : List String) :
    (l.foldl (fun a s => a ++ s) acc).data =
      acc.data ++ ((l.map String.data).flatten) := by
  induction l generalizing acc with
  | nil => simp
  | cons s rest ih =>
    simp only [List.foldl_cons, ih, String.data_append, List.map_cons,
      List.flatten_cons, List.append_assoc]

theorem nat_toString_digit (n : Nat) (h : n < 10) :
    (toString n).data.length = 1 ∧
      ∀ c ∈ (toString n).data, 48 ≤ c.toNat ∧ c.toNat ≤ 57 := by
  interval_cases n <;> exact ⟨rfl, by decide⟩

/-- C8: every generated account-recovery code (six draws from the
alphanumeric generator) is a string of exactly 6 ASCII alphanumeric
characters, and every generated phone-signup verification code (six
draws from the digit generator, printed in decimal) is likewise a string
of exactly 6 ASCII alphanumeric characters (all decimal digits). The
generator contracts — at least six outputs per call, alphanumeric bytes
respectively one-digit values — are the modelled wasmium-random
behaviour. -/
theorem generated_codes_six_chars (bytes items : List Nat)
    (hblen : 6 ≤ bytes.length)
    (hb : ∀ b ∈ bytes,
      (48 ≤ b ∧ b ≤ 57) ∨ (65 ≤ b ∧ b ≤ 90) ∨ (97 ≤ b ∧ b ≤ 122))
    (hilen : 6 ≤ items.length)
    (hi : ∀ n ∈ items, n < 10) :
    (recovery_code_of_random bytes).length = 6 ∧
    (∀ c ∈ (recovery_code_of_random bytes).data, is_ascii_alphanumeric c) ∧
    (numeric_code_of_random items).length = 6 ∧
    (∀ c ∈ (numeric_code_of_random items).data, is_ascii_alphanumeric c) := by
  refine ⟨?_, ?_, ?_, ?_⟩
  · show ((bytes.take 6).map Char.ofNat).length = 6
    simp only [List.length_map, List.length_take]
    omega
  · intro c hc
    rcases List.mem_map.mp hc with ⟨b, hbmem, rfl⟩
    have hbr := hb b (List.mem_of_mem_take hbmem)
    have hvalid : b.isValidChar := Or.inl (by omega)
    have htoNat := char_toNat_ofNat hvalid
    simp only [is_ascii_alphanumeric, htoNat, Bool.or_eq_true,
      Bool.and_eq_true, decide_eq_true_eq]
    omega
  · show ((((items.take 6).map (fun item => toString item)).foldl
      (fun a s => a ++ s) "").data).length = 6
    rw [collect_string_data, show "".data = [] from rfl]
    simp only [List.nil_append, List.length_flatten, List.map_map]
    have hlen : ∀ n ∈ items.take 6, ((toString n).data).length = 1 :=
      fun n hn => (nat_toString_digit n (hi n (List.mem_of_mem_take hn))).1
    have : ((items.take 6).map
        (List.length ∘ String.data ∘ (fun item => toString item))) =
        (items.take 6).map (fun _ => 1) := by
      apply List.map_congr_left
      intro n hn
      exact hlen n hn
    rw [this]
    simp only [List.map_const', List.sum_replicate, smul_eq_mul, mul_one,
      List.length_take]
    omega
  · intro c hc
    have hc2 : c ∈ (((items.take 6).map (fun item => toString item)).foldl
        (fun a s => a ++ s) "").data := hc
    rw [collect_string_data, show "".data = [] from rfl] at hc2
    simp only [List.nil_append, List.mem_flatten, List.map_map,
      List.mem_map] at hc2
    rcases hc2 with ⟨l, ⟨n, hn, rfl⟩, hcl⟩
    have hd := (nat_toString_digit n (hi n (List.mem_of_mem_take hn))).2
      c hcl
    simp only [is_ascii_alphanumeric, Bool.or_eq_true, Bool.and_eq_true,
      decide_eq_true_eq]
    omega

theorem generated_codes_six_chars_witness :
    (recovery_code_of_random [65, 66, 49, 50, 67, 68, 69, 70, 71, 72, 73, 74]).length = 6 ∧
    (numeric_code_of_random [6, 5, 4, 3, 2, 1, 0, 9, 8, 7, 6, 5]).length = 6 :=
  ⟨(generated_codes_six_chars [65, 66, 49, 50, 67, 68, 69, 70, 71, 72, 73, 74]
      [6, 5, 4, 3, 2, 1, 0, 9, 8, 7, 6, 5] (by decide) (by decide)
      (by decide) (by decide)).1,
   (generated_codes_six_chars [65, 66, 49, 50, 67, 68, 69, 70, 71, 72, 73, 74]
      [6, 5, 4, 3, 2, 1, 0, 9, 8, 7, 6, 5] (by decide) (by decide)
      (by decide) (by decide)).2.2.1⟩
